import Mathlib

/-!
Verification model of the image-service daemon core.

This file shallowly embeds the parts of the repository needed to settle the
frozen claims:
  * `storage/src/backend/connection.rs` — HTTP connection with proxy health,
    fallback, and status handling (`is_success_status`, `respond`,
    `Connection::call`, the proxy health-probe loop iteration);
  * `src/bin/nydusd/main.rs` — `DaemonController` (`run_loop` wake handling,
    `shutdown`, `get_daemon`) and the prefetch-manifest parsing loop of
    `process_fs_service`;
  * `rafs/src/metadata/noop.rs` — the `NoopSuperBlock` placeholder provider.

Machine integers are modelled with `Nat` (status codes fit comfortably and no
arithmetic overflows are relevant); fallible operations return `Except`;
panics are modelled with an explicit `PanicOr` outcome type; the network is
modelled as an oracle giving each attempted request its transport outcome.
-/

namespace ImageServiceModel

/-! ## storage/src/backend/connection.rs -/

/-- Opaque transport-level error cause (`reqwest::Error`), carried as text. -/
abbrev TransportError := String

instance {ε α : Type} [DecidableEq ε] [DecidableEq α] :
    DecidableEq (Except ε α) := fun x y =>
  match x, y with
  | .ok a, .ok b =>
    if h : a = b then isTrue (by rw [h])
    else isFalse (fun hc => h (by injection hc))
  | .error a, .error b =>
    if h : a = b then isTrue (by rw [h])
    else isFalse (fun hc => h (by injection hc))
  | .ok _, .error _ => isFalse (fun hc => by injection hc)
  | .error _, .ok _ => isFalse (fun hc => by injection hc)

/-- An HTTP response, reduced to what the embedded code inspects: its status
code (`resp.status()`) and the outcome of reading its body text
(`resp.text()`, which can itself fail). -/
structure Response where
  status : Nat
  text : Except TransportError String
deriving DecidableEq

/-- `ConnectionError` from connection.rs: `Disconnected`, `ErrorWithMsg`
(raised by `respond` for caught statuses), `Common` (transport error),
`Format` (body-text decoding failure). -/
inductive ConnectionError where
  | Disconnected
  | ErrorWithMsg (msg : String)
  | Common (err : TransportError)
  | Format (err : TransportError)
deriving DecidableEq

/-- `is_success_status`: `status >= StatusCode::OK && status < StatusCode::BAD_REQUEST`,
i.e. `200 <= status && status < 400`. -/
def is_success_status (status : Nat) : Bool :=
  200 ≤ status && status < 400

/-- `respond(resp, catch_status)`: pass the response through unless
`catch_status` is set and the status is not a success status, in which case
read the body text into an `ErrorWithMsg` (or `Format` if reading fails). -/
def respond (resp : Response) (catch_status : Bool) :
    Except ConnectionError Response :=
  if !catch_status || is_success_status resp.status then
    .ok resp
  else
    match resp.text with
    | .error e => .error (.Format e)
    | .ok msg => .error (.ErrorWithMsg msg)

/-- `ReqBody` from connection.rs. The streaming variant `Read(Progress<R>, usize)`
is modelled by its declared total length; the reader itself is opaque. -/
inductive ReqBody where
  | Read (total : Nat)
  | Buf (buf : List Nat)
  | Form (form : List (String × String))
deriving DecidableEq

/-- The `data_cloned` computation at the top of the healthy-proxy branch of
`Connection::call`: `Form` and `Buf` bodies are cloned, anything else
(a streaming `Read` body, or no body) becomes `None`. -/
def data_cloned : Option ReqBody → Option ReqBody
  | some (.Form form) => some (.Form form)
  | some (.Buf buf) => some (.Buf buf)
  | _ => none

/-- The `Proxy` struct, reduced to the two fields `Connection::call` reads:
the current value of `health.ok()` and the `fallback` flag. -/
structure ProxyModel where
  health_ok : Bool
  fallback : Bool
deriving DecidableEq

/-- The `Connection` struct: optional proxy and the `shutdown` flag's current
value. The two HTTP clients are represented implicitly by which one an
attempt is routed to. -/
structure Connection where
  proxy : Option ProxyModel
  shutdown : Bool
deriving DecidableEq

/-- Record of one network attempt made by `call_inner`: which client it went
through (`via_proxy` is the `proxy: bool` argument of `call_inner`) and the
request body it carried. -/
structure Attempt where
  via_proxy : Bool
  body : Option ReqBody
deriving DecidableEq

/-- `call_inner`: performs one request on the given client with the given
body and maps the transport outcome through `respond`. The network is an
oracle: `outcome` is what `send()` produced for this attempt. Returns the
attempt record together with the processed result. -/
def call_inner (data : Option ReqBody) (catch_status : Bool)
    (via_proxy : Bool) (outcome : Except TransportError Response) :
    Attempt × Except ConnectionError Response :=
  (⟨via_proxy, data⟩,
    match outcome with
    | .error err => .error (.Common err)
    | .ok resp => respond resp catch_status)

/-- `Connection::call`: check the shutdown flag; with a healthy configured
proxy, attempt through the proxy client with `data_cloned`, and on a 5xx
response or an error fall back to the origin client (with the original body)
iff `fallback` is set; otherwise go straight to the origin client.
`proxyOutcome`/`originOutcome` are the network oracle for the respective
attempts. Returns the list of attempts actually made, in order, and the
final result. -/
def Connection.call (conn : Connection) (data : Option ReqBody)
    (catch_status : Bool)
    (proxyOutcome originOutcome : Except TransportError Response) :
    List Attempt × Except ConnectionError Response :=
  if conn.shutdown then
    ([], .error .Disconnected)
  else
    match conn.proxy with
    | some proxy =>
      if proxy.health_ok then
        let dc := data_cloned data
        let pr := call_inner dc catch_status true proxyOutcome
        match pr.2 with
        | .ok resp =>
          if !proxy.fallback || resp.status < 500 then
            ([pr.1], .ok resp)
          else
            let orr := call_inner data catch_status false originOutcome
            ([pr.1, orr.1], orr.2)
        | .error err =>
          if !proxy.fallback then
            ([pr.1], .error err)
          else
            let orr := call_inner data catch_status false originOutcome
            ([pr.1, orr.1], orr.2)
      else
        let orr := call_inner data catch_status false originOutcome
        ([orr.1], orr.2)
    | none =>
      let orr := call_inner data catch_status false originOutcome
      ([orr.1], orr.2)

/-- Condition under which `Connection::call` abandons a completed proxy
attempt and falls through to the origin client (assuming `fallback` is set):
the processed proxy result is an error, or is a response with a 5xx-or-above
status (`resp.status() >= StatusCode::INTERNAL_SERVER_ERROR`). -/
def falls_back (r : Except ConnectionError Response) : Bool :=
  match r with
  | .ok resp => decide (500 ≤ resp.status)
  | .error _ => true

/-- Log events the proxy health-probe loop can emit on one iteration. -/
inductive ProbeLog where
  | warnUnhealthy
  | infoRecovered
  | silent
deriving DecidableEq

/-- Result of one iteration of the proxy health thread's probe handling:
the new `last_success` local, the value stored into `ProxyHealth.status`,
and the transition-edge log emitted. -/
structure ProbeStep where
  last_success : Bool
  health_ok : Bool
  log : ProbeLog
deriving DecidableEq

/-- One iteration of the health-probe loop body in `Connection::new`: on a
response, store `is_success_status(resp.status())` into the health flag and
log on edges; on a transport error, store `false` and warn if the previous
probe succeeded. -/
def healthProbeIter (last_success : Bool)
    (probe : Except TransportError Response) : ProbeStep :=
  match probe with
  | .ok resp =>
    let success := is_success_status resp.status
    { last_success := success
      health_ok := success
      log :=
        if last_success && !success then .warnUnhealthy
        else if !last_success && success then .infoRecovered
        else .silent }
  | .error _ =>
    { last_success := false
      health_ok := false
      log := if last_success then .warnUnhealthy else .silent }

/-! ## src/bin/nydusd/main.rs — DaemonController -/

/-- The two atomic flags of `DaemonController` that `run_loop` reads. -/
structure CtrlFlags where
  active : Bool
  singleton_mode : Bool
deriving DecidableEq

/-- A `mio` event as `run_loop` inspects it: error flag, readability, token. -/
structure MioEvent where
  is_error : Bool
  is_readable : Bool
  token : Nat
deriving DecidableEq

/-- What `run_loop` does with one event: leave the loop (with the flags as
updated) or keep looping. -/
inductive LoopDecision where
  | exitLoop (final : CtrlFlags)
  | keepLooping (final : CtrlFlags)
deriving DecidableEq

/-- Whether a `LoopDecision` leaves the loop. -/
def LoopDecision.isExit : LoopDecision → Bool
  | .exitLoop _ => true
  | .keepLooping _ => false

/-- The flags after a `LoopDecision`. -/
def LoopDecision.flags : LoopDecision → CtrlFlags
  | .exitLoop s => s
  | .keepLooping s => s

/-- The body of `run_loop` handling one readable wake event on `Token(1)`:
if `active` is set, return; otherwise if `singleton_mode` is clear, store
`active := false` and return; otherwise keep looping. -/
def runLoopWakeStep (s : CtrlFlags) : LoopDecision :=
  if s.active then .exitLoop s
  else if !s.singleton_mode then .exitLoop { s with active := false }
  else .keepLooping s

/-- `run_loop`'s per-event dispatch: error events are logged and skipped;
only readable events on the waker token `Token(1)` reach `runLoopWakeStep`. -/
def handleEvent (s : CtrlFlags) (e : MioEvent) : LoopDecision :=
  if e.is_error then .keepLooping s
  else if e.is_readable && e.token == 1 then runLoopWakeStep s
  else .keepLooping s

/-- The full `DaemonController` state: the two atomic flags, the three
option-valued service slots, and whether the waker has been woken. `D`, `B`,
`F` stand for the daemon, blob-cache-manager and fs-service handle types. -/
structure ControllerState (D B F : Type) where
  active : Bool
  singleton_mode : Bool
  daemon : Option D
  blob_cache_mgr : Option B
  fs_service : Option F
  waker_woken : Bool

/-- Outcome of a call that can panic: either a normal return or a panic
(`unwrap()` on `None`, or `unimplemented!()`). -/
inductive PanicOr (α : Type) where
  | panicked
  | returned (a : α)
deriving DecidableEq

namespace DaemonController

/-- `DaemonController::shutdown`: store `active := false`, set
`singleton_mode := false`, wake the waker, then `take()` the daemon slot and
stop/wait the taken daemon. Returns the new state together with the daemon
handle that was taken out (on which `trigger_stop`/`wait` are invoked). -/
def shutdown (s : ControllerState D B F) : ControllerState D B F × Option D :=
  ({ s with
      active := false
      singleton_mode := false
      waker_woken := true
      daemon := none },
    s.daemon)

/-- `DaemonController::get_daemon`: `self.daemon.lock().unwrap().clone().unwrap()`
— clone the slot and unwrap, panicking when the slot holds `None`. -/
def get_daemon (s : ControllerState D B F) : PanicOr D :=
  match s.daemon with
  | none => .panicked
  | some d => .returned d

end DaemonController

/-! ## src/bin/nydusd/main.rs — prefetch manifest parsing -/

/-- Strip one trailing carriage return, as Rust's `str::lines` does for a
line that was terminated by `\r\n`. -/
def stripCR (l : String) : String :=
  if l.endsWith "\r" then l.dropRight 1 else l

/-- Rust's `str::lines`: split on `'\n'`; every segment that was followed by
a `'\n'` has one trailing `'\r'` stripped; a final empty segment (from a
trailing newline) yields no line; a final non-empty segment is kept as is. -/
def rustLines (s : String) : List String :=
  let parts := s.splitOn "\n"
  let init := (parts.dropLast).map stripCR
  match parts.getLast? with
  | some "" => init
  | none => init
  | some last => init ++ [last]

/-- Whether the prefetch loop skips this line:
`line.is_empty() || line.trim().is_empty()`. -/
def isSkippedLine (line : String) : Bool :=
  line.isEmpty || line.trim.isEmpty

/-- The manifest-reading loop of `process_fs_service`: iterate over the
lines accumulating `line.trim()` for every line that is not skipped. -/
def prefetchPushLoop (acc : List String) : List String → List String
  | [] => acc
  | line :: rest =>
    if isSkippedLine line then prefetchPushLoop acc rest
    else prefetchPushLoop (acc ++ [line.trim]) rest

/-- The `prefetch_files` list built by `process_fs_service` from the
manifest file's content. -/
def prefetch_files (content : String) : List String :=
  prefetchPushLoop [] (rustLines content)

/-! ## rafs/src/metadata/noop.rs — NoopSuperBlock -/

namespace NoopSuperBlock

/-- `RafsSuperInodes::get_max_ino` on `NoopSuperBlock`: `unimplemented!()`. -/
def get_max_ino : PanicOr Nat := .panicked

/-- `RafsSuperInodes::get_inode` on `NoopSuperBlock`: `unimplemented!()`. -/
def get_inode (_ino : Nat) (_digest_validate : Bool) : PanicOr Unit :=
  .panicked

/-- `RafsSuperInodes::get_extended_inode` on `NoopSuperBlock`: `unimplemented!()`. -/
def get_extended_inode (_ino : Nat) (_validate_digest : Bool) : PanicOr Unit :=
  .panicked

/-- `RafsSuperBlock::load` on `NoopSuperBlock`: `unimplemented!()`. -/
def load : PanicOr Unit := .panicked

/-- `RafsSuperBlock::update` on `NoopSuperBlock`: `unimplemented!()`. -/
def update : PanicOr Unit := .panicked

/-- `RafsSuperBlock::destroy` on `NoopSuperBlock`: an empty body that
returns normally. -/
def destroy : PanicOr Unit := .returned ()

/-- `RafsSuperBlock::get_blob_infos` on `NoopSuperBlock`: returns
`Vec::new()` normally. Blob-info handles are opaque here. -/
def get_blob_infos : PanicOr (List Unit) := .returned []

/-- `RafsSuperBlock::root_ino` on `NoopSuperBlock`: `unimplemented!()`. -/
def root_ino : PanicOr Nat := .panicked

/-- `RafsSuperBlock::get_chunk_info` on `NoopSuperBlock`:
`unimplemented!("used by RAFS v6 only")`. -/
def get_chunk_info (_idx : Nat) : PanicOr Unit := .panicked

/-- `RafsSuperBlock::set_blob_device` on `NoopSuperBlock`:
`unimplemented!("used by RAFS v6 only")`. -/
def set_blob_device : PanicOr Unit := .panicked

end NoopSuperBlock

/-! ## Helper lemmas -/

/-- Unfolding of `Connection::call` on a live connection with a healthy
configured proxy: the proxy attempt is made with `data_cloned data`, and the
fallback logic dispatches on the processed proxy result. -/
theorem call_healthy_proxy_eq (p : ProxyModel) (data : Option ReqBody)
    (catch_status : Bool) (pOut oOut : Except TransportError Response)
    (hh : p.health_ok = true) :
    (⟨some p, false⟩ : Connection).call data catch_status pOut oOut =
      match (call_inner (data_cloned data) catch_status true pOut).2 with
      | .ok resp =>
        if !p.fallback || resp.status < 500 then
          ([⟨true, data_cloned data⟩], .ok resp)
        else
          ([⟨true, data_cloned data⟩, ⟨false, data⟩],
            (call_inner data catch_status false oOut).2)
      | .error err =>
        if !p.fallback then ([⟨true, data_cloned data⟩], .error err)
        else
          ([⟨true, data_cloned data⟩, ⟨false, data⟩],
            (call_inner data catch_status false oOut).2) := by
  obtain ⟨hOk, fb⟩ := p
  cases hOk with
  | false => exact Bool.noConfusion hh
  | true => rfl

/-- The manifest loop accumulates exactly the trimmed non-skipped lines, in
order, after whatever is already in the accumulator. -/
theorem prefetchPushLoop_filter_map (ls : List String) (acc : List String) :
    prefetchPushLoop acc ls =
      acc ++ (ls.filter (fun l => !isSkippedLine l)).map String.trim := by
  induction ls generalizing acc with
  | nil => simp [prefetchPushLoop]
  | cons line rest ih =>
    cases h : isSkippedLine line with
    | true => simp [prefetchPushLoop, h, ih]
    | false => simp [prefetchPushLoop, h, ih]

/-! ## Claim theorems -/

/-- C3 (amended): with `catch_status = false`, `respond` passes every
response through; with `catch_status = true`, a response is passed through
iff its status lies in the success range `200 ≤ status < 400` (2xx or 3xx,
not only 2xx), and otherwise the body text is read into
`ErrorWithMsg` (or `Format` if reading the text fails). -/
theorem respond_success_range_characterization (resp : Response) :
    respond resp false = .ok resp ∧
    (respond resp true = .ok resp ↔ (200 ≤ resp.status ∧ resp.status < 400)) ∧
    respond resp true =
      (if 200 ≤ resp.status ∧ resp.status < 400 then .ok resp
       else
         match resp.text with
         | .ok msg => .error (.ErrorWithMsg msg)
         | .error e => .error (.Format e)) := by
  by_cases h : 200 ≤ resp.status ∧ resp.status < 400
  · have hb : is_success_status resp.status = true := by
      simp only [is_success_status, Bool.and_eq_true, decide_eq_true_eq]
      omega
    simp [respond, hb, h]
  · have hb : is_success_status resp.status = false := by
      simp only [is_success_status, Bool.and_eq_false_iff,
        decide_eq_false_iff_not]
      omega
    cases ht : resp.text <;> simp [respond, hb, h, ht]

/-- C3 (counterexample to the claim as stated): a 301 response is not 2xx,
yet `respond` with `catch_status = true` returns it successfully instead of
converting it to the error variant. -/
theorem respond_3xx_counterexample :
    ¬(200 ≤ (301 : Nat) ∧ (301 : Nat) < 300) ∧
    respond ⟨301, .ok "moved"⟩ true = .ok ⟨301, .ok "moved"⟩ := by
  decide

/-- C5 (amended): after a probe iteration that received a response, the
stored health flag is true iff the status lies in `200 ≤ status < 400`
(2xx or 3xx, not only 2xx); after an iteration whose probe raised a
transport error, the stored health flag is false. -/
theorem health_probe_ok_characterization (last_success : Bool)
    (resp : Response) (e : TransportError) :
    ((healthProbeIter last_success (.ok resp)).health_ok = true ↔
      (200 ≤ resp.status ∧ resp.status < 400)) ∧
    (healthProbeIter last_success (.error e)).health_ok = false := by
  constructor
  · simp [healthProbeIter, is_success_status]
  · simp [healthProbeIter]

/-- C5 (counterexample to the claim as stated): a 301 probe response is not
2xx, yet the health flag is set to true. -/
theorem health_probe_3xx_counterexample :
    (healthProbeIter true (.ok ⟨301, .ok ""⟩)).health_ok = true ∧
    ¬(200 ≤ (301 : Nat) ∧ (301 : Nat) < 300) := by
  decide

/-- C6: once the connection's shutdown flag is set, `Connection::call`
returns `Disconnected` with no attempt made on any client — no proxy
selection, body handling, or network request happens. -/
theorem call_shutdown_disconnected (conn : Connection) (data : Option ReqBody)
    (catch_status : Bool) (pOut oOut : Except TransportError Response)
    (h : conn.shutdown = true) :
    conn.call data catch_status pOut oOut = ([], .error .Disconnected) := by
  simp [Connection.call, h]

/-- C6 witness: a concrete shut-down connection with a healthy proxy and a
pending body still returns `Disconnected` with an empty attempt list. -/
theorem call_shutdown_disconnected_witness :
    (⟨some ⟨true, true⟩, true⟩ : Connection).shutdown = true ∧
    (⟨some ⟨true, true⟩, true⟩ : Connection).call (some (.Buf [1])) true
        (.ok ⟨200, .ok ""⟩) (.ok ⟨200, .ok ""⟩) =
      ([], .error .Disconnected) :=
  ⟨rfl, call_shutdown_disconnected _ _ _ _ _ rfl⟩

/-- C7 (amended): every `NoopSuperBlock` method reaches `unimplemented!`
(panics) except `destroy`, which has an empty body and returns normally,
and `get_blob_infos`, which returns an empty vector normally. -/
theorem noop_methods_characterization (ino ino2 idx : Nat)
    (digest_validate validate_digest : Bool) :
    NoopSuperBlock.get_max_ino = PanicOr.panicked ∧
    NoopSuperBlock.get_inode ino digest_validate = PanicOr.panicked ∧
    NoopSuperBlock.get_extended_inode ino2 validate_digest =
      PanicOr.panicked ∧
    NoopSuperBlock.load = PanicOr.panicked ∧
    NoopSuperBlock.update = PanicOr.panicked ∧
    NoopSuperBlock.root_ino = PanicOr.panicked ∧
    NoopSuperBlock.get_chunk_info idx = PanicOr.panicked ∧
    NoopSuperBlock.set_blob_device = PanicOr.panicked ∧
    NoopSuperBlock.destroy = PanicOr.returned () ∧
    NoopSuperBlock.get_blob_infos = PanicOr.returned [] :=
  ⟨rfl, rfl, rfl, rfl, rfl, rfl, rfl, rfl, rfl, rfl⟩

/-- C7 (counterexample to the claim as stated): `destroy` does not panic,
and `get_blob_infos` returns an empty list normally. -/
theorem noop_destroy_counterexample :
    NoopSuperBlock.destroy ≠ PanicOr.panicked ∧
    NoopSuperBlock.get_blob_infos = PanicOr.returned [] := by
  decide

/-- C8: the prefetch list built by `process_fs_service` is exactly the
trimmed non-blank lines of the manifest, in original order — one entry per
line that is neither empty nor whitespace-only, and no entry for blank or
whitespace-only lines. -/
theorem prefetch_files_nonblank_lines (content : String) :
    prefetch_files content =
      ((rustLines content).filter (fun l => !isSkippedLine l)).map
        String.trim ∧
    (prefetch_files content).length =
      ((rustLines content).filter (fun l => !isSkippedLine l)).length := by
  have h := prefetchPushLoop_filter_map (rustLines content) []
  constructor
  · simpa [prefetch_files] using h
  · simp [prefetch_files, h]

/-- C10: `get_daemon` panics exactly when the daemon slot is empty, returns
exactly the stored handle otherwise (never a `None` handle), and always
panics when called after `shutdown` has taken the slot. -/
theorem get_daemon_characterization {D B F : Type}
    (s : ControllerState D B F) (d : D) :
    (DaemonController.get_daemon s = PanicOr.panicked ↔ s.daemon = none) ∧
    (DaemonController.get_daemon s = PanicOr.returned d ↔
      s.daemon = some d) ∧
    DaemonController.get_daemon (DaemonController.shutdown s).1 =
      PanicOr.panicked := by
  refine ⟨?_, ?_, ?_⟩
  · cases hd : s.daemon <;> simp [DaemonController.get_daemon, hd]
  · cases hd : s.daemon <;> simp [DaemonController.get_daemon, hd]
  · simp [DaemonController.get_daemon, DaemonController.shutdown]

/-- C1 (counterexample to the claim as stated): a readable wake on the
waker token that observes `active = true` makes `run_loop` return, although
the claimed exit condition (`active = false` and `singleton_mode = false`)
does not hold there and no stop was requested — `shutdown`, the only
external stop, always stores `active := false` before waking. -/
theorem run_loop_active_wake_counterexample :
    handleEvent ⟨true, true⟩ ⟨false, true, 1⟩ = .exitLoop ⟨true, true⟩ ∧
    ¬((⟨true, true⟩ : CtrlFlags).active = false ∧
      (⟨true, true⟩ : CtrlFlags).singleton_mode = false) := by
  decide

/-- C1 (amended): a readable wake on the waker token makes `run_loop`
return iff `active = true` or `singleton_mode = false`; the loop keeps
running only when `active = false` and `singleton_mode = true`. When it
exits through the `singleton_mode = false` branch it stores
`active := false`; error events never exit the loop. -/
theorem run_loop_wake_exit_characterization (s : CtrlFlags) (e : MioEvent) :
    ((handleEvent s ⟨false, true, 1⟩).isExit = true ↔
      (s.active = true ∨ s.singleton_mode = false)) ∧
    (handleEvent s ⟨false, true, 1⟩).flags =
      (if s.active then s else { s with active := false }) ∧
    handleEvent s { e with is_error := true } = .keepLooping s := by
  obtain ⟨a, m⟩ := s
  refine ⟨?_, ?_, ?_⟩
  · cases a <;> cases m <;> decide
  · cases a <;> cases m <;> decide
  · obtain ⟨_, er, et⟩ := e
    rfl

/-- C4 (counterexample to the claim as stated): `shutdown` does not leave
the daemon slot unchanged — starting from a state whose daemon slot is
occupied, after `shutdown` the slot no longer holds that handle (it has
been taken). -/
theorem shutdown_daemon_slot_counterexample :
    ((DaemonController.shutdown
        (⟨true, true, some 7, some 1, some 2, false⟩ :
          ControllerState Nat Nat Nat)).1).daemon ≠ some 7 := by
  decide

/-- C4 (amended): `shutdown` stores `active := false`, sets
`singleton_mode := false`, wakes the waker, and additionally takes the
daemon slot (leaving it empty, the taken daemon being stopped and waited
on); the blob cache manager slot and the fs service slot are unchanged. -/
theorem shutdown_state_effects {D B F : Type} (s : ControllerState D B F) :
    (DaemonController.shutdown s).1.active = false ∧
    (DaemonController.shutdown s).1.singleton_mode = false ∧
    (DaemonController.shutdown s).1.waker_woken = true ∧
    (DaemonController.shutdown s).1.daemon = none ∧
    (DaemonController.shutdown s).2 = s.daemon ∧
    (DaemonController.shutdown s).1.blob_cache_mgr = s.blob_cache_mgr ∧
    (DaemonController.shutdown s).1.fs_service = s.fs_service :=
  ⟨rfl, rfl, rfl, rfl, rfl, rfl, rfl⟩

/-- C2 (counterexample to the claim as stated): with a healthy proxy whose
`fallback` flag is set, (i) a streaming body does not prevent the origin
retry — on a proxy 500 the origin client is still called, carrying the
original streaming body; and (ii) with `catch_status = true` a proxy 404
(neither 5xx nor a transport error) also triggers the origin retry, because
`respond` has already turned it into an error. -/
theorem call_fallback_claim_counterexample :
    ((⟨some ⟨true, true⟩, false⟩ : Connection).call (some (.Read 4)) false
        (.ok ⟨500, .ok "err"⟩) (.ok ⟨200, .ok "ok"⟩)).1 =
      [⟨true, none⟩, ⟨false, some (.Read 4)⟩] ∧
    ((⟨some ⟨true, true⟩, false⟩ : Connection).call (some (.Buf [7])) true
        (.ok ⟨404, .ok "nf"⟩) (.ok ⟨200, .ok "ok"⟩)).1 =
      [⟨true, some (.Buf [7])⟩, ⟨false, some (.Buf [7])⟩] ∧
    ¬(500 ≤ (404 : Nat)) := by
  decide

/-- C2 (amended): on a live connection with a healthy configured proxy, the
request goes to the proxy client first (with `data_cloned` of the body:
a clone for in-memory and form bodies, no body for a streaming body); the
origin client is then used exactly once iff `fallback` is set and the
processed proxy result falls back (it is an error — a transport error, or,
under `catch_status`, a non-success status turned into an error — or a
response with status ≥ 500), regardless of whether the body is streaming;
the origin attempt carries the original body; with `fallback = false` no
origin attempt is made. -/
theorem call_origin_fallback_characterization (p : ProxyModel)
    (data : Option ReqBody) (catch_status : Bool)
    (pOut oOut : Except TransportError Response)
    (hh : p.health_ok = true) :
    ((⟨some p, false⟩ : Connection).call data catch_status
        pOut oOut).1.head? = some ⟨true, data_cloned data⟩ ∧
    ((((⟨some p, false⟩ : Connection).call data catch_status
            pOut oOut).1.filter (fun a => !a.via_proxy)).length =
      if p.fallback &&
          falls_back (call_inner (data_cloned data) catch_status true pOut).2
        then 1 else 0) ∧
    (((⟨some p, false⟩ : Connection).call data catch_status
        pOut oOut).1.filter (fun a => !a.via_proxy)).all
      (fun a => decide (a.body = data)) = true ∧
    (p.fallback = false →
      ((⟨some p, false⟩ : Connection).call data catch_status pOut oOut).1 =
        [⟨true, data_cloned data⟩]) := by
  rw [call_healthy_proxy_eq p data catch_status pOut oOut hh]
  cases hr : (call_inner (data_cloned data) catch_status true pOut).2 with
  | ok resp =>
    by_cases hf : p.fallback = true
    · by_cases h5 : resp.status < 500
      · have hfb : falls_back (Except.ok resp) = false := by
          simp [falls_back]
          omega
        simp [hf, h5, hfb]
      · have hfb : falls_back (Except.ok resp) = true := by
          simp [falls_back]
          omega
        simp [hf, h5, hfb]
    · have hf' : p.fallback = false := by
        revert hf
        cases p.fallback <;> simp
      simp [hf']
  | error err =>
    by_cases hf : p.fallback = true
    · simp [hf, falls_back]
    · have hf' : p.fallback = false := by
        revert hf
        cases p.fallback <;> simp
      simp [hf', falls_back]

/-- C2 witness: healthy proxy with `fallback = true`, in-memory body,
proxy answers 502 — the proxy attempt comes first with the cloned body and
exactly one origin attempt follows, carrying the body. -/
theorem call_origin_fallback_characterization_witness :
    (⟨true, true⟩ : ProxyModel).health_ok = true ∧
    (((⟨some ⟨true, true⟩, false⟩ : Connection).call (some (.Buf [7])) false
        (.ok ⟨502, .ok "bad"⟩) (.ok ⟨200, .ok "ok"⟩)).1.head? =
      some ⟨true, data_cloned (some (.Buf [7]))⟩ ∧
    ((((⟨some ⟨true, true⟩, false⟩ : Connection).call (some (.Buf [7])) false
            (.ok ⟨502, .ok "bad"⟩) (.ok ⟨200, .ok "ok"⟩)).1.filter
          (fun a => !a.via_proxy)).length =
      if (⟨true, true⟩ : ProxyModel).fallback &&
          falls_back (call_inner (data_cloned (some (.Buf [7]))) false true
            (.ok ⟨502, .ok "bad"⟩)).2
        then 1 else 0) ∧
    (((⟨some ⟨true, true⟩, false⟩ : Connection).call (some (.Buf [7])) false
        (.ok ⟨502, .ok "bad"⟩) (.ok ⟨200, .ok "ok"⟩)).1.filter
        (fun a => !a.via_proxy)).all
      (fun a => decide (a.body = some (.Buf [7]))) = true ∧
    ((⟨true, true⟩ : ProxyModel).fallback = false →
      ((⟨some ⟨true, true⟩, false⟩ : Connection).call (some (.Buf [7])) false
          (.ok ⟨502, .ok "bad"⟩) (.ok ⟨200, .ok "ok"⟩)).1 =
        [⟨true, data_cloned (some (.Buf [7]))⟩])) :=
  ⟨rfl,
    call_origin_fallback_characterization ⟨true, true⟩ (some (.Buf [7]))
      false (.ok ⟨502, .ok "bad"⟩) (.ok ⟨200, .ok "ok"⟩) rfl⟩

/-- C9: on a live connection with a healthy configured proxy and a
streaming (`ReqBody::Read`) body, the proxy attempt carries no request body
at all, and the original streaming body is only ever carried by an origin
attempt. -/
theorem call_streaming_body_not_cloned (p : ProxyModel) (total : Nat)
    (catch_status : Bool) (pOut oOut : Except TransportError Response)
    (hh : p.health_ok = true) :
    ((⟨some p, false⟩ : Connection).call (some (.Read total)) catch_status
        pOut oOut).1.head? = some ⟨true, none⟩ ∧
    ∀ a ∈ ((⟨some p, false⟩ : Connection).call (some (.Read total))
        catch_status pOut oOut).1,
      a.body = some (.Read total) → a.via_proxy = false := by
  rw [call_healthy_proxy_eq p (some (.Read total)) catch_status pOut oOut hh]
  constructor <;> (split <;> (split <;> simp [data_cloned]))

/-- C9 witness: healthy proxy with `fallback = true`, streaming body of
length 3, proxy answers 500 — the proxy attempt carries no body and only
the origin attempt carries the streaming body. -/
theorem call_streaming_body_not_cloned_witness :
    (⟨true, true⟩ : ProxyModel).health_ok = true ∧
    (((⟨some ⟨true, true⟩, false⟩ : Connection).call (some (.Read 3)) false
        (.ok ⟨500, .ok "e"⟩) (.ok ⟨200, .ok "ok"⟩)).1.head? =
      some ⟨true, none⟩ ∧
    ∀ a ∈ ((⟨some ⟨true, true⟩, false⟩ : Connection).call (some (.Read 3))
        false (.ok ⟨500, .ok "e"⟩) (.ok ⟨200, .ok "ok"⟩)).1,
      a.body = some (.Read 3) → a.via_proxy = false) :=
  ⟨rfl,
    call_streaming_body_not_cloned ⟨true, true⟩ 3 false
      (.ok ⟨500, .ok "e"⟩) (.ok ⟨200, .ok "ok"⟩) rfl⟩

end ImageServiceModel
